import Mathlib

/-!
Shallow embedding of the ecodata-payout contract core (src/src/contract.rs,
src/src/msg.rs, src/src/state.rs).

Rust `i64` fields are modelled as `Int`; addresses (`HumanAddr`,
`CanonicalAddr`) as `String`.  The cosmwasm `Result` type is modelled as
`Except Err`, with `unauthorized()` becoming `Err.unauthorized` and
`contract_err(msg)` becoming `Err.contractErr msg` (the exact message
strings of the source are kept).  Address canonicalization
(`deps.api.canonical_address`) is an injected, possibly failing function,
modelled as a parameter of type `Canon`.  The singleton storage cell holding
the `State` record is modelled by explicit state passing: each handler takes
the loaded state and returns the state to be saved, or an error (in which
case nothing is saved; `run` below expresses the persisted outcome of a
call).
-/

namespace Ecodata

/-- The persisted State record (src/src/state.rs). -/
structure State where
  region : String
  beneficiary : String
  owner : String
  oracle : String
  ecostate : Int
  total_tokens : Int
  released_tokens : Int
  is_locked : Bool
deriving DecidableEq, Repr

/-- Errors of the cosmwasm error enum as used by this contract:
`unauthorized()` and `contract_err(msg)`. -/
inductive Err where
  | unauthorized : Err
  | contractErr (msg : String) : Err
deriving DecidableEq, Repr

/-- InitMsg (src/src/msg.rs).  Note: it has no owner field. -/
structure InitMsg where
  region : String
  beneficiary : String
  oracle : String
  ecostate : Int
  total_tokens : Int
deriving DecidableEq, Repr

/-- HandleMsg (src/src/msg.rs). -/
inductive HandleMsg where
  | UpdateEcostate (ecostate : Int) : HandleMsg
  | Lock : HandleMsg
  | Unlock : HandleMsg
  | ChangeBeneficiary (beneficiary : String) : HandleMsg
  | TransferOwnership (owner : String) : HandleMsg
deriving DecidableEq, Repr

/-- The part of `Env` the contract reads: `env.message.signer`, already a
canonical address. -/
structure Env where
  signer : String
deriving DecidableEq, Repr

/-- Injected address canonicalization: `deps.api.canonical_address`, which
may fail on a malformed address. -/
def Canon : Type := String → Except Err String

/-- `valid_ecostate` (contract.rs): accepts exactly `0 ≤ e < 10000`. -/
def valid_ecostate (ecostate : Int) : Except Err Int :=
  if ecostate ≥ 0 ∧ ecostate < 10000 then
    Except.ok ecostate
  else
    Except.error (Err.contractErr "Invalid ecostate. Value must be integer between 0 and 10000")

/-- `check_lock` (contract.rs): errors iff the state is locked. -/
def check_lock (state : State) : Except Err Unit :=
  if state.is_locked then
    Except.error (Err.contractErr "Contract is locked.")
  else
    Except.ok ()

/-- `init` (contract.rs): builds the initial State.  Field expressions are
evaluated in the source's order (beneficiary canonicalization, ecostate
validation, oracle canonicalization); `owner` is `env.message.signer`,
`released_tokens` is `0`, `is_locked` is `false`.  `total_tokens` is taken
from the message unvalidated. -/
def init (canon : Canon) (env : Env) (msg : InitMsg) : Except Err State :=
  match canon msg.beneficiary with
  | Except.error e => Except.error e
  | Except.ok beneficiary =>
    match valid_ecostate msg.ecostate with
    | Except.error e => Except.error e
    | Except.ok ecostate =>
      match canon msg.oracle with
      | Except.error e => Except.error e
      | Except.ok oracle =>
        Except.ok
          { region := msg.region
            beneficiary := beneficiary
            owner := env.signer
            oracle := oracle
            ecostate := ecostate
            total_tokens := msg.total_tokens
            released_tokens := 0
            is_locked := false }

/-- `try_set_lock` (contract.rs): owner-only, no lock gate. -/
def try_set_lock (env : Env) (locked : Bool) (state : State) : Except Err State :=
  if env.signer ≠ state.owner then
    Except.error Err.unauthorized
  else
    Except.ok { state with is_locked := locked }

/-- `try_change_beneficiary` (contract.rs): lock gate, then owner check,
then canonicalization of the new beneficiary. -/
def try_change_beneficiary (canon : Canon) (env : Env) (beneficiary : String)
    (state : State) : Except Err State :=
  match check_lock state with
  | Except.error e => Except.error e
  | Except.ok _ =>
    if env.signer ≠ state.owner then
      Except.error Err.unauthorized
    else
      match canon beneficiary with
      | Except.error e => Except.error e
      | Except.ok b => Except.ok { state with beneficiary := b }

/-- `execute_payout` (contract.rs): errors on a negative payout, otherwise
moves `min(total_tokens, payout)` from `total_tokens` to `released_tokens`
(saturating at `total_tokens = 0`). -/
def execute_payout (state : State) (ecostate_delta : Int) : Except Err State :=
  let payout_amount := ecostate_delta
  if payout_amount < 0 then
    Except.error (Err.contractErr "Error: cannot payout negative ammount")
  else if state.total_tokens ≥ payout_amount then
    Except.ok { state with
      total_tokens := state.total_tokens - payout_amount
      released_tokens := state.released_tokens + payout_amount }
  else
    Except.ok { state with
      released_tokens := state.released_tokens + state.total_tokens
      total_tokens := 0 }

/-- `try_update_ecostate` (contract.rs): lock gate, oracle check, ecostate
validation, then ecostate write and conditional payout; the new state is
saved only at the end of the success path. -/
def try_update_ecostate (env : Env) (ecostate : Int) (state : State) : Except Err State :=
  match check_lock state with
  | Except.error e => Except.error e
  | Except.ok _ =>
    if env.signer ≠ state.oracle then
      Except.error Err.unauthorized
    else
      match valid_ecostate ecostate with
      | Except.error e => Except.error e
      | Except.ok _ =>
        let ecostate_delta := ecostate - state.ecostate
        let state1 := { state with ecostate := ecostate }
        if ecostate_delta > 0 then
          execute_payout state1 ecostate_delta
        else
          Except.ok state1

/-- `try_transfer_ownership` (contract.rs): lock gate, then owner check,
then canonicalization of the new owner. -/
def try_transfer_ownership (canon : Canon) (env : Env) (owner : String)
    (state : State) : Except Err State :=
  match check_lock state with
  | Except.error e => Except.error e
  | Except.ok _ =>
    if env.signer ≠ state.owner then
      Except.error Err.unauthorized
    else
      match canon owner with
      | Except.error e => Except.error e
      | Except.ok o => Except.ok { state with owner := o }

/-- `handle` (contract.rs): message dispatch. -/
def handle (canon : Canon) (env : Env) (msg : HandleMsg) (state : State) : Except Err State :=
  match msg with
  | HandleMsg.Lock => try_set_lock env true state
  | HandleMsg.Unlock => try_set_lock env false state
  | HandleMsg.ChangeBeneficiary b => try_change_beneficiary canon env b state
  | HandleMsg.UpdateEcostate e => try_update_ecostate env e state
  | HandleMsg.TransferOwnership o => try_transfer_ownership canon env o state

/-- The state persisted after a handle call: the saved state on success,
the untouched previous state on error (the storage `update`/`save` writes
only on the success path). -/
def run (canon : Canon) (env : Env) (msg : HandleMsg) (state : State) : State :=
  match handle canon env msg state with
  | Except.ok s => s
  | Except.error _ => state

/-- Reachable states: produced by a successful `init` followed by any
sequence of successful `handle` calls (with arbitrary canonicalization
functions, environments and messages).  The index records the
`total_tokens` supplied at init. -/
inductive Reachable : Int → State → Prop where
  | base (canon : Canon) (env : Env) (msg : InitMsg) (s : State)
      (h : init canon env msg = Except.ok s) : Reachable msg.total_tokens s
  | step (t : Int) (canon : Canon) (env : Env) (m : HandleMsg) (s s' : State)
      (hr : Reachable t s) (h : handle canon env m s = Except.ok s') : Reachable t s'

/-- A canonicalization function that accepts every address unchanged
(standing in for the mock api of the tests). -/
def idCanon : Canon := fun a => Except.ok a

/-- The InitMsg of the integration tests. -/
def initMsg : InitMsg :=
  { region := "angeles national forest"
    beneficiary := "beneficiary"
    oracle := "oracle"
    ecostate := 3500
    total_tokens := 100000 }

/-- The state right after the tests' init by "creator". -/
def sInit : State :=
  { region := "angeles national forest"
    beneficiary := "beneficiary"
    owner := "creator"
    oracle := "oracle"
    ecostate := 3500
    total_tokens := 100000
    released_tokens := 0
    is_locked := false }

/-- sInit is what the tests' init produces. -/
theorem init_sInit : init idCanon { signer := "creator" } initMsg = Except.ok sInit := rfl

/-- sInit is reachable with init total 100000. -/
theorem reachable_sInit : Reachable 100000 sInit :=
  Reachable.base idCanon { signer := "creator" } initMsg sInit init_sInit

/-! ### Inversion lemmas for the success paths -/

/-- Inversion for `valid_ecostate`: success returns the value unchanged and
forces the range bounds. -/
theorem valid_ecostate_ok (e v : Int) (h : valid_ecostate e = Except.ok v) :
    0 ≤ e ∧ e < 10000 ∧ v = e := by
  unfold valid_ecostate at h
  split at h
  · next hc => exact ⟨hc.1, hc.2, (Except.ok.injEq _ _).mp h |>.symm⟩
  · exact absurd h (by simp)

/-- `check_lock` succeeds exactly on unlocked states. -/
theorem check_lock_ok (s : State) (h : check_lock s = Except.ok ()) :
    s.is_locked = false := by
  unfold check_lock at h
  split at h
  · exact absurd h (by simp)
  · next hc => exact Bool.not_eq_true _ ▸ eq_false_of_ne_true hc

/-- Inversion for `init`: characterizes every field of the produced state. -/
theorem init_ok (canon : Canon) (env : Env) (msg : InitMsg) (s : State)
    (h : init canon env msg = Except.ok s) :
    s.owner = env.signer ∧ s.released_tokens = 0 ∧ s.is_locked = false ∧
    s.total_tokens = msg.total_tokens ∧ s.ecostate = msg.ecostate ∧
    0 ≤ msg.ecostate ∧ msg.ecostate < 10000 ∧ s.region = msg.region := by
  unfold init at h
  split at h
  · exact absurd h (by simp)
  · next beneficiary hb =>
    split at h
    · exact absurd h (by simp)
    · next ecoVal he =>
      obtain ⟨h1, h2, h3⟩ := valid_ecostate_ok msg.ecostate ecoVal he
      split at h
      · exact absurd h (by simp)
      · next oracle ho =>
        cases (Except.ok.injEq _ _).mp h
        exact ⟨rfl, rfl, rfl, rfl, h3, h1, h2, rfl⟩

/-- Out-of-range initial ecostate makes `init` fail. -/
theorem init_rejects_bad_ecostate (canon : Canon) (env : Env) (msg : InitMsg)
    (hbad : ¬ (0 ≤ msg.ecostate ∧ msg.ecostate < 10000)) (s : State) :
    init canon env msg ≠ Except.ok s := by
  intro h
  obtain ⟨-, -, -, -, -, h6, h7, -⟩ := init_ok canon env msg s h
  exact hbad ⟨h6, h7⟩

/-- Inversion for `try_set_lock`. -/
theorem try_set_lock_ok (env : Env) (l : Bool) (s s' : State)
    (h : try_set_lock env l s = Except.ok s') :
    env.signer = s.owner ∧ s' = { s with is_locked := l } := by
  unfold try_set_lock at h
  split at h
  · exact absurd h (by simp)
  · next hc =>
    exact ⟨not_not.mp hc, ((Except.ok.injEq _ _).mp h).symm⟩

/-- Inversion for `try_change_beneficiary`: only the beneficiary changes. -/
theorem try_change_beneficiary_ok (canon : Canon) (env : Env) (b : String) (s s' : State)
    (h : try_change_beneficiary canon env b s = Except.ok s') :
    s.is_locked = false ∧ env.signer = s.owner ∧
    s'.region = s.region ∧ s'.owner = s.owner ∧ s'.oracle = s.oracle ∧
    s'.ecostate = s.ecostate ∧ s'.total_tokens = s.total_tokens ∧
    s'.released_tokens = s.released_tokens ∧ s'.is_locked = s.is_locked := by
  unfold try_change_beneficiary at h
  split at h
  · exact absurd h (by simp)
  · next u hc =>
    have hlock := check_lock_ok s (by cases u; exact hc)
    split at h
    · exact absurd h (by simp)
    · next hsig =>
      split at h
      · exact absurd h (by simp)
      · next bcanon hb =>
        cases (Except.ok.injEq _ _).mp h
        exact ⟨hlock, not_not.mp hsig, rfl, rfl, rfl, rfl, rfl, rfl, rfl⟩

/-- Inversion for `try_transfer_ownership`: only the owner changes. -/
theorem try_transfer_ownership_ok (canon : Canon) (env : Env) (o : String) (s s' : State)
    (h : try_transfer_ownership canon env o s = Except.ok s') :
    s.is_locked = false ∧ env.signer = s.owner ∧
    s'.region = s.region ∧ s'.beneficiary = s.beneficiary ∧ s'.oracle = s.oracle ∧
    s'.ecostate = s.ecostate ∧ s'.total_tokens = s.total_tokens ∧
    s'.released_tokens = s.released_tokens ∧ s'.is_locked = s.is_locked := by
  unfold try_transfer_ownership at h
  split at h
  · exact absurd h (by simp)
  · next u hc =>
    have hlock := check_lock_ok s (by cases u; exact hc)
    split at h
    · exact absurd h (by simp)
    · next hsig =>
      split at h
      · exact absurd h (by simp)
      · next ocanon ho =>
        cases (Except.ok.injEq _ _).mp h
        exact ⟨hlock, not_not.mp hsig, rfl, rfl, rfl, rfl, rfl, rfl, rfl⟩

/-- Inversion for `execute_payout`: the delta is nonnegative, only the two
token counters change, their sum is conserved, and nonnegativity of both
counters is preserved. -/
theorem execute_payout_ok (s : State) (d : Int) (s' : State)
    (h : execute_payout s d = Except.ok s') :
    0 ≤ d ∧
    s'.region = s.region ∧ s'.beneficiary = s.beneficiary ∧ s'.owner = s.owner ∧
    s'.oracle = s.oracle ∧ s'.ecostate = s.ecostate ∧ s'.is_locked = s.is_locked ∧
    s'.total_tokens + s'.released_tokens = s.total_tokens + s.released_tokens ∧
    (0 ≤ s.total_tokens → 0 ≤ s.released_tokens →
      0 ≤ s'.total_tokens ∧ 0 ≤ s'.released_tokens) := by
  unfold execute_payout at h
  dsimp only at h
  split at h
  · exact absurd h (by simp)
  · next hneg =>
    split at h
    · next hge =>
      cases (Except.ok.injEq _ _).mp h
      refine ⟨by omega, rfl, rfl, rfl, rfl, rfl, rfl, by dsimp; ring, ?_⟩
      intro h1 h2
      dsimp
      omega
    · next hlt =>
      cases (Except.ok.injEq _ _).mp h
      refine ⟨by omega, rfl, rfl, rfl, rfl, rfl, rfl, by dsimp; ring, ?_⟩
      intro h1 h2
      dsimp
      omega

/-- `execute_payout` cannot fail on a nonnegative delta. -/
theorem execute_payout_is_ok (s : State) (d : Int) (hd : 0 ≤ d) :
    ∃ s', execute_payout s d = Except.ok s' := by
  unfold execute_payout
  rw [if_neg (by omega)]
  split
  · exact ⟨_, rfl⟩
  · exact ⟨_, rfl⟩

/-- Inversion for `try_update_ecostate`: the gates passed, the ecostate is
the validated new value, administrative fields are unchanged, the token sum
is conserved and token nonnegativity is preserved. -/
theorem try_update_ecostate_ok (env : Env) (e : Int) (s s' : State)
    (h : try_update_ecostate env e s = Except.ok s') :
    s.is_locked = false ∧ env.signer = s.oracle ∧ 0 ≤ e ∧ e < 10000 ∧
    s'.ecostate = e ∧
    s'.region = s.region ∧ s'.beneficiary = s.beneficiary ∧ s'.owner = s.owner ∧
    s'.oracle = s.oracle ∧ s'.is_locked = s.is_locked ∧
    s'.total_tokens + s'.released_tokens = s.total_tokens + s.released_tokens ∧
    (0 ≤ s.total_tokens → 0 ≤ s.released_tokens →
      0 ≤ s'.total_tokens ∧ 0 ≤ s'.released_tokens) := by
  unfold try_update_ecostate at h
  split at h
  · exact absurd h (by simp)
  · next u hc =>
    have hlock := check_lock_ok s (by cases u; exact hc)
    split at h
    · exact absurd h (by simp)
    · next hsig =>
      split at h
      · exact absurd h (by simp)
      · next ecoVal he =>
        obtain ⟨h1, h2, -⟩ := valid_ecostate_ok e ecoVal he
        dsimp only at h
        split at h
        · next hpos =>
          obtain ⟨hd, r1, r2, r3, r4, r5, r6, r7, r8⟩ :=
            execute_payout_ok { s with ecostate := e } (e - s.ecostate) s' h
          exact ⟨hlock, not_not.mp hsig, h1, h2, r5, r1, r2, r3, r4, r6, r7, r8⟩
        · cases (Except.ok.injEq _ _).mp h
          exact ⟨hlock, not_not.mp hsig, h1, h2, rfl, rfl, rfl, rfl, rfl, rfl, rfl,
            fun a b => ⟨a, b⟩⟩

/-- Master inversion for `handle`: every successful handle call conserves
the token sum, preserves token nonnegativity, and preserves the ecostate
range. -/
theorem handle_ok (canon : Canon) (env : Env) (m : HandleMsg) (s s' : State)
    (h : handle canon env m s = Except.ok s') :
    s'.total_tokens + s'.released_tokens = s.total_tokens + s.released_tokens ∧
    (0 ≤ s.total_tokens → 0 ≤ s.released_tokens →
      0 ≤ s'.total_tokens ∧ 0 ≤ s'.released_tokens) ∧
    (0 ≤ s.ecostate → s.ecostate < 10000 → 0 ≤ s'.ecostate ∧ s'.ecostate < 10000) := by
  cases m with
  | Lock =>
    obtain ⟨-, h2⟩ := try_set_lock_ok env true s s' h
    subst h2
    exact ⟨rfl, fun a b => ⟨a, b⟩, fun a b => ⟨a, b⟩⟩
  | Unlock =>
    obtain ⟨-, h2⟩ := try_set_lock_ok env false s s' h
    subst h2
    exact ⟨rfl, fun a b => ⟨a, b⟩, fun a b => ⟨a, b⟩⟩
  | ChangeBeneficiary b =>
    obtain ⟨-, -, -, -, -, r4, r5, r6, -⟩ := try_change_beneficiary_ok canon env b s s' h
    rw [r4, r5, r6]
    exact ⟨rfl, fun a b => ⟨a, b⟩, fun a b => ⟨a, b⟩⟩
  | UpdateEcostate e =>
    obtain ⟨-, -, h1, h2, h3, -, -, -, -, -, r7, r8⟩ := try_update_ecostate_ok env e s s' h
    rw [h3]
    exact ⟨r7, r8, fun _ _ => ⟨h1, h2⟩⟩
  | TransferOwnership o =>
    obtain ⟨-, -, -, -, -, r4, r5, r6, -⟩ := try_transfer_ownership_ok canon env o s s' h
    rw [r4, r5, r6]
    exact ⟨rfl, fun a b => ⟨a, b⟩, fun a b => ⟨a, b⟩⟩

/-- Ecostate range invariant as a standalone induction (helper). -/
theorem reachable_ecostate_range (t : Int) (s : State) (h : Reachable t s) :
    0 ≤ s.ecostate ∧ s.ecostate < 10000 := by
  induction h with
  | base canon env msg s0 h0 =>
    obtain ⟨-, -, -, -, h5, h6, h7, -⟩ := init_ok canon env msg s0 h0
    rw [h5]
    exact ⟨h6, h7⟩
  | step t canon env m s s' hr hh ih =>
    exact (handle_ok canon env m s s' hh).2.2 ih.1 ih.2

/-- On an unlocked state, with the oracle as sender, an out-of-range new
ecostate makes `try_update_ecostate` fail with the InvalidEcostate error
(helper). -/
theorem try_update_ecostate_invalid (env : Env) (e : Int) (s : State)
    (hlock : s.is_locked = false) (hsig : env.signer = s.oracle)
    (hbad : ¬ (0 ≤ e ∧ e < 10000)) :
    try_update_ecostate env e s =
      Except.error (Err.contractErr "Invalid ecostate. Value must be integer between 0 and 10000") := by
  have hcl : check_lock s = Except.ok () := by simp [check_lock, hlock]
  have hve : valid_ecostate e =
      Except.error (Err.contractErr "Invalid ecostate. Value must be integer between 0 and 10000") := by
    unfold valid_ecostate
    exact if_neg hbad
  unfold try_update_ecostate
  rw [hcl]
  dsimp only
  rw [if_neg (not_not_intro hsig), hve]

/-! ### Claims -/

/-- C1: for every reachable state S, `S.total_tokens + S.released_tokens`
equals the `total_tokens` supplied at init; no operation changes this sum. -/
theorem tokens_conserved (t : Int) (s : State) (h : Reachable t s) :
    s.total_tokens + s.released_tokens = t := by
  induction h with
  | base canon env msg s0 h0 =>
    obtain ⟨-, h2, -, h4, -, -, -, -⟩ := init_ok canon env msg s0 h0
    rw [h2, h4]
    ring
  | step t canon env m s s' hr hh ih =>
    have := (handle_ok canon env m s s' hh).1
    omega

/-- Witness for C1 at the tests' init state. -/
theorem tokens_conserved_witness :
    sInit.total_tokens + sInit.released_tokens = 100000 :=
  tokens_conserved 100000 sInit reachable_sInit

/-- C2: an `UpdateEcostate` call by the oracle on an unlocked state with a
valid new value succeeds; with `delta = new - old`, if `delta > 0` then
`moved = min(old.total_tokens, delta)` tokens move from `total_tokens` to
`released_tokens`, if `delta ≤ 0` both counters are unchanged, and in both
cases the ecostate becomes the new value. -/
theorem update_ecostate_spec (env : Env) (e : Int) (s : State)
    (hlock : s.is_locked = false) (hsig : env.signer = s.oracle)
    (hlo : 0 ≤ e) (hhi : e < 10000) :
    ∃ s', try_update_ecostate env e s = Except.ok s' ∧
      s'.ecostate = e ∧
      (0 < e - s.ecostate →
        s'.total_tokens = s.total_tokens - min s.total_tokens (e - s.ecostate) ∧
        s'.released_tokens = s.released_tokens + min s.total_tokens (e - s.ecostate)) ∧
      (e - s.ecostate ≤ 0 →
        s'.total_tokens = s.total_tokens ∧ s'.released_tokens = s.released_tokens) := by
  have hcl : check_lock s = Except.ok () := by simp [check_lock, hlock]
  have hve : valid_ecostate e = Except.ok e := by
    unfold valid_ecostate
    exact if_pos ⟨hlo, hhi⟩
  unfold try_update_ecostate
  rw [hcl]
  dsimp only
  rw [if_neg (not_not_intro hsig), hve]
  dsimp only
  by_cases hd : e - s.ecostate > 0
  · rw [if_pos hd]
    unfold execute_payout
    dsimp only
    rw [if_neg (by omega)]
    by_cases hge : s.total_tokens ≥ e - s.ecostate
    · rw [if_pos hge]
      refine ⟨_, rfl, rfl, fun _ => ⟨?_, ?_⟩, fun hle => absurd hd (by omega)⟩
      · dsimp only
        omega
      · dsimp only
        omega
    · rw [if_neg hge]
      refine ⟨_, rfl, rfl, fun _ => ⟨?_, ?_⟩, fun hle => absurd hd (by omega)⟩
      · dsimp only
        omega
      · dsimp only
        omega
  · rw [if_neg hd]
    exact ⟨_, rfl, rfl, fun hpos => absurd hpos hd, fun _ => ⟨rfl, rfl⟩⟩

/-- Witness for C2: the tests' oracle update to 5000 on sInit. -/
theorem update_ecostate_spec_witness :
    ∃ s', try_update_ecostate { signer := "oracle" } 5000 sInit = Except.ok s' ∧
      s'.ecostate = 5000 ∧
      (0 < 5000 - sInit.ecostate →
        s'.total_tokens = sInit.total_tokens - min sInit.total_tokens (5000 - sInit.ecostate) ∧
        s'.released_tokens =
          sInit.released_tokens + min sInit.total_tokens (5000 - sInit.ecostate)) ∧
      (5000 - sInit.ecostate ≤ 0 →
        s'.total_tokens = sInit.total_tokens ∧
        s'.released_tokens = sInit.released_tokens) :=
  update_ecostate_spec { signer := "oracle" } 5000 sInit rfl rfl (by decide) (by decide)

/-- An InitMsg carrying a negative total_tokens, which init accepts. -/
def negMsg : InitMsg :=
  { region := "r"
    beneficiary := "b"
    oracle := "o"
    ecostate := 0
    total_tokens := -1 }

/-- The state produced by init from negMsg. -/
def negState : State :=
  { region := "r"
    beneficiary := "b"
    owner := "c"
    oracle := "o"
    ecostate := 0
    total_tokens := -1
    released_tokens := 0
    is_locked := false }

/-- C3 counterexample: `init` does not validate `total_tokens`, so a state
with `total_tokens < 0` is reachable (here directly after init with
`total_tokens = -1`). -/
theorem tokens_nonneg_counterexample :
    Reachable (-1) negState ∧ negState.total_tokens < 0 :=
  ⟨Reachable.base idCanon { signer := "c" } negMsg negState rfl, by decide⟩

/-- C3 amended: for every state reachable from an init whose supplied
`total_tokens` is nonnegative, `total_tokens ≥ 0` and
`released_tokens ≥ 0`; every operation preserves both bounds. -/
theorem tokens_nonneg (t : Int) (s : State) (h : Reachable t s) :
    0 ≤ t → 0 ≤ s.total_tokens ∧ 0 ≤ s.released_tokens := by
  induction h with
  | base canon env msg s0 h0 =>
    intro ht
    obtain ⟨-, h2, -, h4, -, -, -, -⟩ := init_ok canon env msg s0 h0
    rw [h2, h4]
    exact ⟨ht, le_refl 0⟩
  | step t canon env m s s' hr hh ih =>
    intro ht
    obtain ⟨h1, h2⟩ := ih ht
    exact (handle_ok canon env m s s' hh).2.1 h1 h2

/-- Witness for C3 amended at the tests' init state. -/
theorem tokens_nonneg_witness :
    0 ≤ sInit.total_tokens ∧ 0 ≤ sInit.released_tokens :=
  tokens_nonneg 100000 sInit reachable_sInit (by decide)

/-- C4: every reachable state has `0 ≤ ecostate < 10000`; init rejects an
out-of-range initial ecostate; `try_update_ecostate` rejects an
out-of-range new value with the InvalidEcostate error (once lock and
authorization pass); and no other operation changes the ecostate. -/
theorem ecostate_in_range (t : Int) (s : State) (h : Reachable t s) (canon : Canon)
    (env : Env) (msg : InitMsg) (e : Int) :
    (0 ≤ s.ecostate ∧ s.ecostate < 10000) ∧
    (¬ (0 ≤ msg.ecostate ∧ msg.ecostate < 10000) →
      ∀ s0, init canon env msg ≠ Except.ok s0) ∧
    (s.is_locked = false → env.signer = s.oracle → ¬ (0 ≤ e ∧ e < 10000) →
      try_update_ecostate env e s =
        Except.error
          (Err.contractErr "Invalid ecostate. Value must be integer between 0 and 10000")) ∧
    (∀ l s', try_set_lock env l s = Except.ok s' → s'.ecostate = s.ecostate) ∧
    (∀ b s', try_change_beneficiary canon env b s = Except.ok s' →
      s'.ecostate = s.ecostate) ∧
    (∀ o s', try_transfer_ownership canon env o s = Except.ok s' →
      s'.ecostate = s.ecostate) := by
  refine ⟨reachable_ecostate_range t s h, init_rejects_bad_ecostate canon env msg,
    try_update_ecostate_invalid env e s, ?_, ?_, ?_⟩
  · intro l s' hs
    obtain ⟨-, h2⟩ := try_set_lock_ok env l s s' hs
    rw [h2]
  · intro b s' hs
    exact (try_change_beneficiary_ok canon env b s s' hs).2.2.2.2.2.1
  · intro o s' hs
    exact (try_transfer_ownership_ok canon env o s s' hs).2.2.2.2.2.1

/-- Witness for C4 at the tests' init state. -/
theorem ecostate_in_range_witness :
    (0 ≤ sInit.ecostate ∧ sInit.ecostate < 10000) ∧
    (¬ (0 ≤ negMsg.ecostate ∧ negMsg.ecostate < 10000) →
      ∀ s0, init idCanon { signer := "oracle" } negMsg ≠ Except.ok s0) ∧
    (sInit.is_locked = false → Env.signer { signer := "oracle" } = sInit.oracle →
      ¬ (0 ≤ (-1 : Int) ∧ (-1 : Int) < 10000) →
      try_update_ecostate { signer := "oracle" } (-1) sInit =
        Except.error
          (Err.contractErr "Invalid ecostate. Value must be integer between 0 and 10000")) ∧
    (∀ l s', try_set_lock { signer := "oracle" } l sInit = Except.ok s' →
      s'.ecostate = sInit.ecostate) ∧
    (∀ b s', try_change_beneficiary idCanon { signer := "oracle" } b sInit = Except.ok s' →
      s'.ecostate = sInit.ecostate) ∧
    (∀ o s', try_transfer_ownership idCanon { signer := "oracle" } o sInit = Except.ok s' →
      s'.ecostate = sInit.ecostate) :=
  ecostate_in_range 100000 sInit reachable_sInit idCanon { signer := "oracle" } negMsg (-1)

/-- A locked variant of sInit (what the owner's Lock call produces). -/
def lockedState : State := { sInit with is_locked := true }

/-- A wrong sender makes `try_set_lock` fail with Unauthorized (helper). -/
theorem try_set_lock_unauthorized (env : Env) (l : Bool) (s : State)
    (hne : env.signer ≠ s.owner) :
    try_set_lock env l s = Except.error Err.unauthorized := by
  unfold try_set_lock
  rw [if_pos hne]

/-- On an unlocked state a wrong sender makes `try_update_ecostate` fail
with Unauthorized (helper). -/
theorem try_update_ecostate_unauthorized (env : Env) (e : Int) (s : State)
    (hlock : s.is_locked = false) (hne : env.signer ≠ s.oracle) :
    try_update_ecostate env e s = Except.error Err.unauthorized := by
  have hcl : check_lock s = Except.ok () := by simp [check_lock, hlock]
  unfold try_update_ecostate
  rw [hcl]
  dsimp only
  rw [if_pos hne]

/-- On an unlocked state a wrong sender makes `try_change_beneficiary` fail
with Unauthorized (helper). -/
theorem try_change_beneficiary_unauthorized (canon : Canon) (env : Env) (b : String)
    (s : State) (hlock : s.is_locked = false) (hne : env.signer ≠ s.owner) :
    try_change_beneficiary canon env b s = Except.error Err.unauthorized := by
  have hcl : check_lock s = Except.ok () := by simp [check_lock, hlock]
  unfold try_change_beneficiary
  rw [hcl]
  dsimp only
  rw [if_pos hne]

/-- On an unlocked state a wrong sender makes `try_transfer_ownership` fail
with Unauthorized (helper). -/
theorem try_transfer_ownership_unauthorized (canon : Canon) (env : Env) (o : String)
    (s : State) (hlock : s.is_locked = false) (hne : env.signer ≠ s.owner) :
    try_transfer_ownership canon env o s = Except.error Err.unauthorized := by
  have hcl : check_lock s = Except.ok () := by simp [check_lock, hlock]
  unfold try_transfer_ownership
  rw [hcl]
  dsimp only
  rw [if_pos hne]

/-- A failed handle call persists nothing (helper form). -/
theorem run_of_error (canon : Canon) (env : Env) (m : HandleMsg) (s : State) (e : Err)
    (h : handle canon env m s = Except.error e) :
    run canon env m s = s := by
  unfold run
  rw [h]

/-- C5 counterexample: on a locked contract, a sender who is not the oracle
receives ContractLocked — not Unauthorized — from UpdateEcostate, so the
claim's "any other sender receives Unauthorized" fails as stated. -/
theorem role_auth_counterexample :
    ("mallory" : String) ≠ lockedState.oracle ∧
    try_update_ecostate { signer := "mallory" } 5000 lockedState =
      Except.error (Err.contractErr "Contract is locked.") ∧
    Err.contractErr "Contract is locked." ≠ Err.unauthorized :=
  ⟨by decide, rfl, by decide⟩

/-- C5 amended: UpdateEcostate succeeds only for the oracle; Lock, Unlock,
ChangeBeneficiary and TransferOwnership succeed only for the owner; a wrong
sender receives Unauthorized and leaves the state unchanged, provided the
contract is unlocked for the three lock-gated operations (Lock and Unlock
unconditionally); on a locked contract the gated operations fail with
ContractLocked instead. -/
theorem role_auth (canon : Canon) (env : Env) (s : State) (e : Int) (b o : String) :
    (∀ s', try_update_ecostate env e s = Except.ok s' → env.signer = s.oracle) ∧
    (∀ l s', try_set_lock env l s = Except.ok s' → env.signer = s.owner) ∧
    (∀ s', try_change_beneficiary canon env b s = Except.ok s' → env.signer = s.owner) ∧
    (∀ s', try_transfer_ownership canon env o s = Except.ok s' → env.signer = s.owner) ∧
    (env.signer ≠ s.owner →
      (∀ l, try_set_lock env l s = Except.error Err.unauthorized) ∧
      run canon env HandleMsg.Lock s = s ∧ run canon env HandleMsg.Unlock s = s) ∧
    (s.is_locked = false → env.signer ≠ s.oracle →
      try_update_ecostate env e s = Except.error Err.unauthorized ∧
      run canon env (HandleMsg.UpdateEcostate e) s = s) ∧
    (s.is_locked = false → env.signer ≠ s.owner →
      try_change_beneficiary canon env b s = Except.error Err.unauthorized ∧
      run canon env (HandleMsg.ChangeBeneficiary b) s = s ∧
      try_transfer_ownership canon env o s = Except.error Err.unauthorized ∧
      run canon env (HandleMsg.TransferOwnership o) s = s) := by
  refine ⟨?_, ?_, ?_, ?_, ?_, ?_, ?_⟩
  · intro s' hs
    exact (try_update_ecostate_ok env e s s' hs).2.1
  · intro l s' hs
    exact (try_set_lock_ok env l s s' hs).1
  · intro s' hs
    exact (try_change_beneficiary_ok canon env b s s' hs).2.1
  · intro s' hs
    exact (try_transfer_ownership_ok canon env o s s' hs).2.1
  · intro hne
    refine ⟨fun l => try_set_lock_unauthorized env l s hne, ?_, ?_⟩
    · exact run_of_error canon env HandleMsg.Lock s Err.unauthorized
        (try_set_lock_unauthorized env true s hne)
    · exact run_of_error canon env HandleMsg.Unlock s Err.unauthorized
        (try_set_lock_unauthorized env false s hne)
  · intro hlock hne
    have hu := try_update_ecostate_unauthorized env e s hlock hne
    exact ⟨hu, run_of_error canon env (HandleMsg.UpdateEcostate e) s Err.unauthorized hu⟩
  · intro hlock hne
    have hb := try_change_beneficiary_unauthorized canon env b s hlock hne
    have ho := try_transfer_ownership_unauthorized canon env o s hlock hne
    exact ⟨hb, run_of_error canon env (HandleMsg.ChangeBeneficiary b) s Err.unauthorized hb,
      ho, run_of_error canon env (HandleMsg.TransferOwnership o) s Err.unauthorized ho⟩

/-- Witness for C5 amended: a non-oracle, non-owner sender on the unlocked
test state gets Unauthorized from UpdateEcostate and changes nothing. -/
theorem role_auth_witness :
    try_update_ecostate { signer := "anyone" } 5000 sInit = Except.error Err.unauthorized ∧
    run idCanon { signer := "anyone" } (HandleMsg.UpdateEcostate 5000) sInit = sInit :=
  (role_auth idCanon { signer := "anyone" } sInit 5000 "b2" "o2").2.2.2.2.2.1
    rfl (by decide)

/-- C6: while locked, ChangeBeneficiary, UpdateEcostate and
TransferOwnership fail with ContractLocked for every caller — the lock gate
runs before the identity check, so even a sender who is neither owner nor
oracle receives ContractLocked, not Unauthorized. -/
theorem lock_gate_first (canon : Canon) (env : Env) (s : State) (e : Int) (b o : String)
    (h : s.is_locked = true) :
    try_change_beneficiary canon env b s =
      Except.error (Err.contractErr "Contract is locked.") ∧
    try_update_ecostate env e s = Except.error (Err.contractErr "Contract is locked.") ∧
    try_transfer_ownership canon env o s =
      Except.error (Err.contractErr "Contract is locked.") ∧
    Err.contractErr "Contract is locked." ≠ Err.unauthorized := by
  have hcl : check_lock s = Except.error (Err.contractErr "Contract is locked.") := by
    simp [check_lock, h]
  refine ⟨?_, ?_, ?_, by decide⟩
  · unfold try_change_beneficiary
    rw [hcl]
  · unfold try_update_ecostate
    rw [hcl]
  · unfold try_transfer_ownership
    rw [hcl]

/-- Witness for C6: a stranger on the locked test state. -/
theorem lock_gate_first_witness :
    try_change_beneficiary idCanon { signer := "mallory" } "b2" lockedState =
      Except.error (Err.contractErr "Contract is locked.") ∧
    try_update_ecostate { signer := "mallory" } 4000 lockedState =
      Except.error (Err.contractErr "Contract is locked.") ∧
    try_transfer_ownership idCanon { signer := "mallory" } "o2" lockedState =
      Except.error (Err.contractErr "Contract is locked.") ∧
    Err.contractErr "Contract is locked." ≠ Err.unauthorized :=
  lock_gate_first idCanon { signer := "mallory" } lockedState 4000 "b2" "o2" rfl

/-- C7: a Lock or Unlock call whose sender is the owner always succeeds and
sets `is_locked` accordingly, whatever the current lock state is. -/
theorem lock_unlock_spec (env : Env) (s : State) (l : Bool) (h : env.signer = s.owner) :
    try_set_lock env l s = Except.ok { s with is_locked := l } := by
  unfold try_set_lock
  rw [if_neg (not_not_intro h)]

/-- Witness for C7: the owner unlocks an already locked state. -/
theorem lock_unlock_spec_witness :
    try_set_lock { signer := "creator" } false lockedState =
      Except.ok { lockedState with is_locked := false } :=
  lock_unlock_spec { signer := "creator" } lockedState false rfl

/-- C8: every handle call that returns an error persists nothing — the
stored state after the call is exactly the state before it. -/
theorem handle_atomic (canon : Canon) (env : Env) (m : HandleMsg) (s : State) (e : Err)
    (h : handle canon env m s = Except.error e) :
    run canon env m s = s := by
  unfold run
  rw [h]

/-- Witness for C8: a locked UpdateEcostate fails and persists nothing. -/
theorem handle_atomic_witness :
    run idCanon { signer := "mallory" } (HandleMsg.UpdateEcostate 5000) lockedState =
      lockedState :=
  handle_atomic idCanon { signer := "mallory" } (HandleMsg.UpdateEcostate 5000) lockedState
    (Err.contractErr "Contract is locked.") rfl

/-- C9: the negative-payout branch of `execute_payout` is unreachable from
`try_update_ecostate`: a positive delta always yields a successful payout,
and every error `try_update_ecostate` can return is Unauthorized,
ContractLocked or InvalidEcostate — never the internal negative-payout
invariant violation. -/
theorem negative_payout_unreachable (s : State) (env : Env) (e d : Int) (er : Err) :
    (0 < d → ∃ s', execute_payout s d = Except.ok s') ∧
    (try_update_ecostate env e s = Except.error er →
      er = Err.unauthorized ∨ er = Err.contractErr "Contract is locked." ∨
      er = Err.contractErr "Invalid ecostate. Value must be integer between 0 and 10000") := by
  constructor
  · intro hd
    exact execute_payout_is_ok s d (le_of_lt hd)
  · intro her
    unfold try_update_ecostate at her
    by_cases hl : s.is_locked
    · have hcl : check_lock s = Except.error (Err.contractErr "Contract is locked.") := by
        simp [check_lock, hl]
      rw [hcl] at her
      dsimp only at her
      exact Or.inr (Or.inl ((Except.error.injEq _ _).mp her).symm)
    · have hcl : check_lock s = Except.ok () := by simp [check_lock, hl]
      rw [hcl] at her
      dsimp only at her
      by_cases hs : env.signer ≠ s.oracle
      · rw [if_pos hs] at her
        exact Or.inl ((Except.error.injEq _ _).mp her).symm
      · rw [if_neg hs] at her
        by_cases hv : e ≥ 0 ∧ e < 10000
        · have hve : valid_ecostate e = Except.ok e := by
            unfold valid_ecostate
            exact if_pos hv
          rw [hve] at her
          dsimp only at her
          by_cases hd' : e - s.ecostate > 0
          · rw [if_pos hd'] at her
            obtain ⟨s2, hok⟩ :=
              execute_payout_is_ok { s with ecostate := e } (e - s.ecostate) (by omega)
            rw [hok] at her
            exact absurd her (by simp)
          · rw [if_neg hd'] at her
            exact absurd her (by simp)
        · have hve : valid_ecostate e =
              Except.error
                (Err.contractErr "Invalid ecostate. Value must be integer between 0 and 10000") := by
            unfold valid_ecostate
            exact if_neg hv
          rw [hve] at her
          dsimp only at her
          exact Or.inr (Or.inr ((Except.error.injEq _ _).mp her).symm)

/-- Witness for C9: a concrete positive delta pays out successfully. -/
theorem negative_payout_unreachable_witness :
    ∃ s', execute_payout sInit 1500 = Except.ok s' :=
  (negative_payout_unreachable sInit { signer := "oracle" } 5000 1500 Err.unauthorized).1
    (by decide)

/-- C10: a successful Init stores the call's authenticated signer as owner
(the InitMsg itself has no owner field), zero released_tokens, and an
unlocked contract. -/
theorem init_fields (canon : Canon) (env : Env) (msg : InitMsg) (s : State)
    (h : init canon env msg = Except.ok s) :
    s.owner = env.signer ∧ s.released_tokens = 0 ∧ s.is_locked = false := by
  obtain ⟨h1, h2, h3, -⟩ := init_ok canon env msg s h
  exact ⟨h1, h2, h3⟩

/-- Witness for C10 at the tests' init call. -/
theorem init_fields_witness :
    sInit.owner = Env.signer { signer := "creator" } ∧ sInit.released_tokens = 0 ∧
    sInit.is_locked = false :=
  init_fields idCanon { signer := "creator" } initMsg sInit init_sInit

end Ecodata
